import Mathlib

/-!
Verification of the Kiroween Spirit Box core against its source.

Shallow embedding of the code in `src/config/spectral-constants.ts`,
`src/medium/LLMService.ts` (SpectralEntropyService and EntropyGate),
`src/medium/TTSService.ts`, `src/audio/AudioGraphManager.ts`, and the
App session orchestrator (`processQuestion`).

JavaScript numbers are modelled as rationals; `Math.random()` draws,
network/fetch outcomes and timestamps are passed in as explicit
parameters, so every embedded operation is a total executable function.
-/

/-! ### Configuration (`src/config/spectral-constants.ts`) -/

namespace AUDIO_CONFIG

def SAMPLE_RATE : ℕ := 44100

def FFT_SIZE : ℕ := 2048

def SMOOTHING : ℚ := 8/10

namespace NOISE

def GAIN : ℚ := 3/10

def SWEEP_MIN_FREQ : ℚ := 200

def SWEEP_MAX_FREQ : ℚ := 2000

def SWEEP_DURATION : ℚ := 10000

def BUFFER_SIZE : ℕ := 4096

end NOISE

namespace SPEECH

def REVERB_DECAY : ℚ := 3

def DISTORTION_AMOUNT : ℚ := 8/10

def SIDECHAIN_AMOUNT : ℚ := 3/10

end SPEECH

namespace ENTROPY

def PRESENCE_THRESHOLD : ℚ := 45/100

def DEBUG_VALUE : ℚ := 85/100

end ENTROPY

end AUDIO_CONFIG

/-! ### Spectral readings (`src/types.ts`) -/

/-- Provenance tag of a `SpectralReading` (`source` field in `src/types.ts`). -/
inductive ReadingSource
  | nasa_donki
  | random_fallback
  | debug_override
deriving DecidableEq, Repr

/-- Per-storm summary stored in a reading's metadata
(`recentStorms` entries built in `getSpectralReading`).
The `startTime` string of the storm is modelled by its parsed epoch-millisecond value. -/
structure StormSummary where
  id : String
  time : ℤ
  kpIndex : Option ℚ
deriving DecidableEq, Repr

/-- Optional diagnostics attached to a successful reading. -/
structure ReadingMetadata where
  stormCount : ℕ
  recentStorms : List StormSummary
deriving DecidableEq, Repr

/-- `SpectralReading` from `src/types.ts`: scalar value, timestamp, provenance, metadata. -/
structure SpectralReading where
  value : ℚ
  timestamp : ℤ
  source : ReadingSource
  metadata : Option ReadingMetadata := none
deriving DecidableEq, Repr

/-- One geomagnetic-storm record from the NASA DONKI payload
(`DonkiGeomagneticStorm` in `src/medium/LLMService.ts`).
`startTime` is modelled by its parsed epoch-millisecond value
(`new Date(storm.startTime).getTime()`). -/
structure DonkiGeomagneticStorm where
  gstID : String
  startTime : ℤ
  kpIndex : Option ℚ
deriving DecidableEq, Repr

/-! ### SpectralEntropyService (`src/medium/LLMService.ts`) -/

/-- `SpectralEntropyService.calculateEntropyFromStorms`, embedded verbatim:
baseline 0.3; with storms present, add a storm-count factor (capped at 5 storms),
a recency bonus (0.2 if any storm started less than 24 h before `now`), and an
average-Kp factor; then add `rand * 0.5` (the `Math.random()` draw) and clamp
the sum to [0, 1]. `now` is `Date.now()` in milliseconds. -/
def calculateEntropyFromStorms (storms : List DonkiGeomagneticStorm) (now : ℤ)
    (rand : ℚ) : ℚ :=
  let baseEntropy : ℚ :=
    if storms.length > 0 then
      let stormCountFactor : ℚ := min ((storms.length : ℚ) / 5) 1
      let recentStorms := storms.filter fun storm =>
        ((now : ℚ) - (storm.startTime : ℚ)) / (1000 * 60 * 60) < 24
      let recencyFactor : ℚ := if recentStorms.length > 0 then 2/10 else 0
      let avgKpIndex : ℚ :=
        ((storms.filter fun s => s.kpIndex.isSome).foldl
          (fun sum s => sum + s.kpIndex.getD 0) 0) / max (storms.length : ℚ) 1
      let kpFactor : ℚ := min (avgKpIndex / 9) 1
      3/10 + (stormCountFactor * (15/100) + recencyFactor * (1/10) + kpFactor * (15/100))
    else 3/10
  let randomVariation : ℚ := rand * (1/2)
  let finalEntropy := baseEntropy + randomVariation
  max 0 (min 1 finalEntropy)

/-- Outcome of the single bounded DONKI fetch inside `getSpectralReading`:
either a decoded list of storms, or any failure (5 s timeout, non-ok HTTP
status, or a malformed JSON payload), all of which land in the `catch` block. -/
inductive FetchOutcome
  | success (storms : List DonkiGeomagneticStorm)
  | failure
deriving DecidableEq, Repr

/-- `SpectralEntropyService.getSpectralReading`. `debugMode` is the service's
debug flag, `outcome` the result of the DONKI fetch, `now` is `Date.now()`, and
`rand` the `Math.random()` draw used on whichever branch consumes one. -/
def getSpectralReading (debugMode : Bool) (outcome : FetchOutcome) (now : ℤ)
    (rand : ℚ) : SpectralReading :=
  if debugMode then
    { value := AUDIO_CONFIG.ENTROPY.DEBUG_VALUE
      timestamp := now
      source := ReadingSource.debug_override }
  else
    match outcome with
    | FetchOutcome.success storms =>
        { value := calculateEntropyFromStorms storms now rand
          timestamp := now
          source := ReadingSource.nasa_donki
          metadata := some
            { stormCount := storms.length
              recentStorms := (storms.take 3).map fun s =>
                { id := s.gstID, time := s.startTime, kpIndex := s.kpIndex } } }
    | FetchOutcome.failure =>
        { value := rand
          timestamp := now
          source := ReadingSource.random_fallback }

/-! ### EntropyGate (`src/medium/LLMService.ts`) -/

/-- `EntropyGate.shouldGhostRespond`, parametrised by the reading the entropy
service returned: `respond = reading.value >= AUDIO_CONFIG.ENTROPY.PRESENCE_THRESHOLD`. -/
def shouldGhostRespond (reading : SpectralReading) : Bool × SpectralReading :=
  (decide (reading.value ≥ AUDIO_CONFIG.ENTROPY.PRESENCE_THRESHOLD), reading)

/-! ### Claims C1, C2, C7 -/

/-- Claim C1: the Presence Gate responds exactly when the reading's value is at
least `PRESENCE_THRESHOLD` (0.45); equality with the threshold yields `respond =
true` (inclusive boundary), and any smaller value yields `respond = false`. -/
theorem gate_threshold_inclusive :
    (∀ r : SpectralReading,
      (shouldGhostRespond r).1 = true ↔ AUDIO_CONFIG.ENTROPY.PRESENCE_THRESHOLD ≤ r.value)
    ∧ (∀ r : SpectralReading,
      r.value = AUDIO_CONFIG.ENTROPY.PRESENCE_THRESHOLD → (shouldGhostRespond r).1 = true)
    ∧ (∀ r : SpectralReading,
      r.value < AUDIO_CONFIG.ENTROPY.PRESENCE_THRESHOLD → (shouldGhostRespond r).1 = false) := by
  refine ⟨fun r => ?_, fun r h => ?_, fun r h => ?_⟩
  · simp [shouldGhostRespond, ge_iff_le]
  · simp [shouldGhostRespond, ge_iff_le, h]
  · simp only [shouldGhostRespond, ge_iff_le, decide_eq_false_iff_not]
    exact not_le.mpr h

/-- Concrete instances of C1: a reading exactly at the threshold responds,
one just below does not. -/
theorem gate_threshold_inclusive_witness :
    (shouldGhostRespond { value := 45/100, timestamp := 0, source := ReadingSource.nasa_donki }).1
      = true
    ∧ (shouldGhostRespond { value := 44/100, timestamp := 0, source := ReadingSource.nasa_donki }).1
      = false :=
  ⟨gate_threshold_inclusive.2.1 _ (by norm_num [AUDIO_CONFIG.ENTROPY.PRESENCE_THRESHOLD]),
   gate_threshold_inclusive.2.2 _ (by norm_num [AUDIO_CONFIG.ENTROPY.PRESENCE_THRESHOLD])⟩

/-- Claim C2: `getSpectralReading` is total; on any fetch failure it returns a
reading tagged `random_fallback` whose value (the `Math.random()` draw) lies in
[0, 1], and on success the scalar derived from the storm data lies in [0, 1]. -/
theorem getSpectralReading_value_bounds (storms : List DonkiGeomagneticStorm)
    (now : ℤ) (rand : ℚ) (h0 : 0 ≤ rand) (h1 : rand < 1) :
    ((getSpectralReading false FetchOutcome.failure now rand).source
        = ReadingSource.random_fallback
      ∧ 0 ≤ (getSpectralReading false FetchOutcome.failure now rand).value
      ∧ (getSpectralReading false FetchOutcome.failure now rand).value ≤ 1)
    ∧ (0 ≤ (getSpectralReading false (FetchOutcome.success storms) now rand).value
      ∧ (getSpectralReading false (FetchOutcome.success storms) now rand).value ≤ 1) := by
  refine ⟨⟨rfl, ?_, ?_⟩, ?_, ?_⟩
  · simpa [getSpectralReading] using h0
  · simp only [getSpectralReading]
    exact le_of_lt h1
  · simp only [getSpectralReading, calculateEntropyFromStorms]
    exact le_max_left 0 _
  · simp only [getSpectralReading, calculateEntropyFromStorms]
    exact max_le (by norm_num) (min_le_left 1 _)

/-- Concrete instance of C2 at `rand = 1/2`, `now = 0`, no storms. -/
theorem getSpectralReading_value_bounds_witness :
    ((getSpectralReading false FetchOutcome.failure 0 (1/2)).source
        = ReadingSource.random_fallback
      ∧ 0 ≤ (getSpectralReading false FetchOutcome.failure 0 (1/2)).value
      ∧ (getSpectralReading false FetchOutcome.failure 0 (1/2)).value ≤ 1)
    ∧ (0 ≤ (getSpectralReading false (FetchOutcome.success []) 0 (1/2)).value
      ∧ (getSpectralReading false (FetchOutcome.success []) 0 (1/2)).value ≤ 1) :=
  getSpectralReading_value_bounds [] 0 (1/2) (by norm_num) (by norm_num)

/-- Claim C7: with the debug flag set, `getSpectralReading` ignores the fetch
outcome and the random draw and returns the fixed reading `DEBUG_VALUE = 0.85`
tagged `debug_override`; since 0.85 ≥ 0.45 the gate then approves. -/
theorem debug_override_forces_presence (outcome : FetchOutcome) (now : ℤ) (rand : ℚ) :
    getSpectralReading true outcome now rand =
      { value := AUDIO_CONFIG.ENTROPY.DEBUG_VALUE
        timestamp := now
        source := ReadingSource.debug_override }
    ∧ (shouldGhostRespond (getSpectralReading true outcome now rand)).1 = true := by
  refine ⟨rfl, ?_⟩
  simp [getSpectralReading, shouldGhostRespond, AUDIO_CONFIG.ENTROPY.DEBUG_VALUE,
    AUDIO_CONFIG.ENTROPY.PRESENCE_THRESHOLD]
  norm_num

/-! ### Session orchestrator (`App.processQuestion` in `src/App.tsx`) -/

/-- `SessionStatus` from `src/types.ts`. -/
inductive SessionStatus
  | inactive
  | active
  | processing
  | responding
deriving DecidableEq, Repr

/-- Speaker tag of a transcript entry (`'user' | 'spirit'`). -/
inductive Speaker
  | user
  | spirit
deriving DecidableEq, Repr

/-- `TranscriptEntry` from `src/types.ts`. -/
structure TranscriptEntry where
  id : String
  timestamp : ℤ
  speaker : Speaker
  text : String
  entropyReading : Option ℚ := none
deriving DecidableEq, Repr

/-- `EVPSession` from `src/types.ts`. -/
structure EVPSession where
  status : SessionStatus
  transcript : List TranscriptEntry
  currentEntropy : Option ℚ
  debugMode : Bool
deriving DecidableEq, Repr

/-- The App component's state touched by a turn: the session, the
`isManifesting` flag, and the last ducking command the App issued to the
audio graph manager (`audioGraphManager.duckNoise`). -/
structure AppState where
  session : EVPSession
  isManifesting : Bool
  ducking : Bool
deriving DecidableEq, Repr

/-- Outcome of `await entropyGate.shouldGhostRespond()` inside the `try`
block: either it raised an exception, or it produced a reading (the gate
then computes `respond` from that reading). -/
inductive GateStep
  | thrown
  | ok (reading : SpectralReading)
deriving DecidableEq, Repr

/-- Outcome of the `responding` phase body (LLM request, TTS synthesis,
effects routing, playback wait): either some step raised an exception, or
the ghost response text was produced and playback completed. -/
inductive RespondStep
  | thrown
  | ok (responseText : String)
deriving DecidableEq, Repr

/-- The user transcript entry appended on input (`userEntry` in `processQuestion`);
`t` is the `Date.now()` value used for both the id and the timestamp. -/
def mkUserEntry (t : ℤ) (question : String) : TranscriptEntry :=
  { id := "user-" ++ toString t, timestamp := t, speaker := Speaker.user, text := question }

/-- The stock entry appended when the gate denies (`noPresenceEntry`). -/
def mkNoPresenceEntry (t : ℤ) (reading : SpectralReading) : TranscriptEntry :=
  { id := "spirit-" ++ toString t, timestamp := t, speaker := Speaker.spirit,
    text := "No presence detected...", entropyReading := some reading.value }

/-- The ghost-response entry appended after playback (`spiritEntry`). -/
def mkSpiritEntry (t : ℤ) (text : String) (reading : SpectralReading) : TranscriptEntry :=
  { id := "spirit-" ++ toString t, timestamp := t, speaker := Speaker.spirit,
    text := text, entropyReading := some reading.value }

/-- `App.processQuestion`, embedded as a state transformer. The asynchronous
environment of the turn is passed in: `gate` is the outcome of the entropy-gate
call, `resp` the outcome of the responding-phase body, `tUser` and `tSpirit` the
`Date.now()` values at entry creation. Mirrors the source control flow: early
return unless `active`; append the user entry and move to `processing`; on gate
denial append the stock entry and return to `active`; otherwise move to
`responding`, duck the noise, and either append the spirit entry or — on any
exception — hit the `catch` (status back to `active`); the `finally` block
always clears `isManifesting` and issues `duckNoise(false)`. -/
def processQuestion (st : AppState) (question : String) (gate : GateStep)
    (resp : RespondStep) (tUser tSpirit : ℤ) : AppState :=
  if st.session.status ≠ SessionStatus.active then st
  else
    let st1 : AppState :=
      { st with session := { st.session with
          status := SessionStatus.processing,
          transcript := st.session.transcript ++ [mkUserEntry tUser question] } }
    match gate with
    | GateStep.thrown =>
        { st1 with
          session := { st1.session with status := SessionStatus.active },
          isManifesting := false,
          ducking := false }
    | GateStep.ok reading =>
        let st2 : AppState :=
          { st1 with session := { st1.session with currentEntropy := some reading.value } }
        if (shouldGhostRespond reading).1 = false then
          { st2 with
            session := { st2.session with
              status := SessionStatus.active,
              transcript := st2.session.transcript ++ [mkNoPresenceEntry tSpirit reading] },
            isManifesting := false,
            ducking := false }
        else
          let st3 : AppState :=
            { st2 with
              session := { st2.session with status := SessionStatus.responding },
              isManifesting := true,
              ducking := true }
          match resp with
          | RespondStep.thrown =>
              { st3 with
                session := { st3.session with status := SessionStatus.active },
                isManifesting := false,
                ducking := false }
          | RespondStep.ok responseText =>
              { st3 with
                session := { st3.session with
                  status := SessionStatus.active,
                  transcript := st3.session.transcript
                    ++ [mkSpiritEntry tSpirit responseText reading] },
                isManifesting := false,
                ducking := false }

/-! ### Claims C3, C4 -/

/-- Claim C3: any exception raised while the turn is in the `processing` phase
(the gate call throws) or the `responding` phase (the generator / synthesizer /
playback body throws after the gate approved) is caught: the session returns to
`active`, ducking is disabled, and the transcript gains only the user entry —
no response entry is appended. -/
theorem processQuestion_exception_drops_turn (st : AppState) (question : String)
    (gate : GateStep) (resp : RespondStep) (tUser tSpirit : ℤ)
    (hactive : st.session.status = SessionStatus.active)
    (hexc : gate = GateStep.thrown ∨
      ∃ r, gate = GateStep.ok r ∧ (shouldGhostRespond r).1 = true ∧ resp = RespondStep.thrown) :
    (processQuestion st question gate resp tUser tSpirit).session.status = SessionStatus.active
    ∧ (processQuestion st question gate resp tUser tSpirit).ducking = false
    ∧ (processQuestion st question gate resp tUser tSpirit).session.transcript
        = st.session.transcript ++ [mkUserEntry tUser question] := by
  rcases hexc with hg | ⟨r, hg, hr, hresp⟩
  · subst hg
    simp [processQuestion, hactive]
  · subst hg; subst hresp
    simp [processQuestion, hactive, hr]

/-- A freshly started session: status `active`, empty transcript, no reading yet. -/
def activeEmptyAppState : AppState :=
  { session :=
      { status := SessionStatus.active
        transcript := []
        currentEntropy := none
        debugMode := false }
    isManifesting := false
    ducking := false }

/-- A mid-turn state: status `responding`, one user entry, ducking enabled. -/
def respondingAppState : AppState :=
  { session :=
      { status := SessionStatus.responding
        transcript := [mkUserEntry 1 "hello"]
        currentEntropy := some (1/2)
        debugMode := false }
    isManifesting := true
    ducking := true }

/-- Concrete instance of C3: in an active empty session, a gate exception
drops the turn, leaving status `active`, ducking off, and only the user entry
appended. -/
theorem processQuestion_exception_drops_turn_witness :
    (processQuestion activeEmptyAppState
        "who is there" GateStep.thrown (RespondStep.ok "GEARS...") 5 9).session.status
      = SessionStatus.active
    ∧ (processQuestion activeEmptyAppState
        "who is there" GateStep.thrown (RespondStep.ok "GEARS...") 5 9).ducking = false
    ∧ (processQuestion activeEmptyAppState
        "who is there" GateStep.thrown (RespondStep.ok "GEARS...") 5 9).session.transcript
      = activeEmptyAppState.session.transcript ++ [mkUserEntry 5 "who is there"] :=
  processQuestion_exception_drops_turn activeEmptyAppState "who is there" GateStep.thrown
    (RespondStep.ok "GEARS...") 5 9 rfl (Or.inl rfl)

/-- Claim C4: `processQuestion` invoked while the session status is not
`active` (e.g. a second input arriving during `processing` or `responding`)
returns the state unchanged: the new input is ignored, so no two turns overlap. -/
theorem processQuestion_ignores_input_when_not_active (st : AppState)
    (question : String) (gate : GateStep) (resp : RespondStep) (tUser tSpirit : ℤ)
    (h : st.session.status ≠ SessionStatus.active) :
    processQuestion st question gate resp tUser tSpirit = st := by
  simp [processQuestion, h]

/-- Concrete instance of C4: a question submitted while a turn is `responding`
leaves the state untouched. -/
theorem processQuestion_ignores_input_when_not_active_witness :
    processQuestion respondingAppState "second question"
        (GateStep.ok { value := 1, timestamp := 2, source := ReadingSource.nasa_donki })
        (RespondStep.ok "COLD...") 3 4
      = respondingAppState :=
  processQuestion_ignores_input_when_not_active respondingAppState "second question" _ _ 3 4
    (by simp [respondingAppState])

/-! ### TTSService (`src/medium/TTSService.ts`) -/

/-- A decoded audio buffer (`AudioBuffer`): channel count, frame count,
sample rate, and per-channel sample data. -/
structure AudioBufferM where
  numberOfChannels : ℕ
  length : ℕ
  sampleRate : ℕ
  channelData : List (List ℚ)
deriving DecidableEq, Repr

/-- `AudioBuffer.duration = length / sampleRate` (seconds). -/
def AudioBufferM.duration (b : AudioBufferM) : ℚ := (b.length : ℚ) / (b.sampleRate : ℚ)

/-- `AudioContext.createBuffer(channels, frames, sampleRate)`: a buffer whose
samples are all initialised to zero. -/
def createBuffer (channels frames sampleRate : ℕ) : AudioBufferM :=
  { numberOfChannels := channels
    length := frames
    sampleRate := sampleRate
    channelData := List.replicate channels (List.replicate frames 0) }

/-- `TTSService.browserTTSFallback`: speaks via the platform voice (outside the
audio graph) and returns a two-second single-channel silent buffer at the
context's sample rate, used only for timing. -/
def browserTTSFallback (sampleRate : ℕ) : AudioBufferM :=
  createBuffer 1 (sampleRate * 2) sampleRate

/-- Outcome of the TTS fetch-and-decode inside `TTSService.synthesize`: either
a decoded playable buffer, or any failure (network error, non-ok status, or
`decodeAudioData` rejecting the bytes), all of which land in the `catch`. -/
inductive SynthOutcome
  | ok (buffer : AudioBufferM)
  | error
deriving DecidableEq, Repr

/-- `TTSService.synthesize`: returns the decoded buffer on success and the
`browserTTSFallback` silent buffer on any failure; it never throws. -/
def synthesize (sampleRate : ℕ) : SynthOutcome → AudioBufferM
  | SynthOutcome.ok b => b
  | SynthOutcome.error => browserTTSFallback sampleRate

/-- An `AudioBufferSourceNode` as configured by `applyGhostEffects`. -/
structure AudioBufferSourceNodeM where
  buffer : AudioBufferM
  playbackRate : ℚ
  started : Bool
deriving DecidableEq, Repr

/-- A `BiquadFilterNode`'s parameters. -/
structure BiquadFilterM where
  freq : ℚ
  q : ℚ
deriving DecidableEq, Repr

/-- `TTSService.makeDistortionCurve(amount)`: a 44100-entry curve with
`curve[i] = ((3+amount)·x·20·deg) / (pi + amount·|x|)` for
`x = i·2/44100 - 1` and `deg = pi/180`. The JavaScript double `Math.PI` is
kept symbolic as the rational parameter `pi`. -/
def makeDistortionCurve (pi amount : ℚ) : List ℚ :=
  let samples : ℕ := 44100
  let deg : ℚ := pi / 180
  (List.range samples).map fun (i : ℕ) =>
    let x : ℚ := ((i : ℚ) * 2) / (samples : ℚ) - 1
    ((3 + amount) * x * 20 * deg) / (pi + amount * |x|)

/-- The transient per-response effects chain built by `applyGhostEffects`:
source → low-pass → wave-shaper (distortion) → convolver (reverb) → wet gain,
with a parallel dry path low-pass → dry gain; both reach the destination. -/
structure EffectsInstance where
  source : AudioBufferSourceNodeM
  lowPass : BiquadFilterM
  distortionAmount : ℚ
  reverbDecay : ℚ
  wetGain : ℚ
  dryGain : ℚ
deriving DecidableEq, Repr

/-- `TTSService.applyGhostEffects`: wraps the buffer in an unstarted source at
playback rate 0.85, wires the fixed effects chain (low-pass at 2000 Hz with
Q = 1, distortion of intensity `DISTORTION_AMOUNT * 400`, reverb impulse of
`REVERB_DECAY` seconds, wet gain 0.85, dry gain 0.15), and reports
`duration = buffer.duration / playbackRate`. -/
def applyGhostEffects (audioBuffer : AudioBufferM) : EffectsInstance × ℚ :=
  let source : AudioBufferSourceNodeM :=
    { buffer := audioBuffer
      playbackRate := 85/100
      started := false }
  let inst : EffectsInstance :=
    { source := source
      lowPass := { freq := 2000, q := 1 }
      distortionAmount := AUDIO_CONFIG.SPEECH.DISTORTION_AMOUNT * 400
      reverbDecay := AUDIO_CONFIG.SPEECH.REVERB_DECAY
      wetGain := 85/100
      dryGain := 15/100 }
  (inst, audioBuffer.duration / source.playbackRate)

/-! ### Claims C5, C9 -/

/-- Claim C5: for every decoded buffer, `applyGhostEffects` returns an
unstarted source node and reports `duration = buffer.duration / playbackRate`,
where the playback rate is the fixed factor 0.85 < 1. -/
theorem applyGhostEffects_duration (b : AudioBufferM) :
    (applyGhostEffects b).1.source.started = false
    ∧ (applyGhostEffects b).1.source.playbackRate = 85/100
    ∧ (applyGhostEffects b).1.source.playbackRate < 1
    ∧ (applyGhostEffects b).2 = b.duration / ((85:ℚ)/100) := by
  refine ⟨rfl, rfl, ?_, rfl⟩
  norm_num [applyGhostEffects]

/-- Claim C9: the precomputed distortion curve has 44100 entries and satisfies
`curve[i] = ((3+k)·x·20·(pi/180)) / (pi + k·|x|)` with `x = 2·i/44100 - 1` at
every index `i < 44100`, and `applyGhostEffects` derives the intensity it uses
as `DISTORTION_AMOUNT * 400`. -/
theorem makeDistortionCurve_formula :
    (∀ pi k : ℚ, (makeDistortionCurve pi k).length = 44100)
    ∧ (∀ pi k : ℚ, ∀ i : ℕ, i < 44100 →
      (makeDistortionCurve pi k).get? i =
        some (((3 + k) * (((i : ℚ) * 2) / 44100 - 1) * 20 * (pi / 180)) /
          (pi + k * |((i : ℚ) * 2) / 44100 - 1|)))
    ∧ (∀ b : AudioBufferM,
      (applyGhostEffects b).1.distortionAmount = AUDIO_CONFIG.SPEECH.DISTORTION_AMOUNT * 400) := by
  refine ⟨fun pi k => ?_, fun pi k i h => ?_, fun b => rfl⟩
  · simp only [makeDistortionCurve, List.length_map, List.length_range]
  · simp only [makeDistortionCurve, List.get?_eq_getElem?, List.getElem?_map,
      List.getElem?_range h, Option.map_some']
    norm_num

/-- Concrete instance of C9: the first entry of the curve (index 0, `x = -1`). -/
theorem makeDistortionCurve_formula_witness :
    (makeDistortionCurve 3 1).get? 0 =
      some (((3 + 1) * (((0 : ℕ) : ℚ) * 2 / 44100 - 1) * 20 * (3 / 180)) /
        (3 + 1 * |((0 : ℕ) : ℚ) * 2 / 44100 - 1|)) :=
  makeDistortionCurve_formula.2.1 3 1 0 (by norm_num)

/-! ### Claim C6 -/

/-- Counterexample to C6 as stated: the fallback buffer is not "routed with
zero effects" — in `App.processQuestion` it goes through the same
`applyGhostEffects` chain as any response, which sets a playback rate of
0.85 ≠ 1 and therefore reports a duration of 40/17 s, not the buffer's 2 s. -/
theorem synthesize_fallback_not_zero_effects :
    (synthesize 44100 SynthOutcome.error).duration = 2
    ∧ (applyGhostEffects (synthesize 44100 SynthOutcome.error)).1.source.playbackRate ≠ 1
    ∧ (applyGhostEffects (synthesize 44100 SynthOutcome.error)).1.wetGain ≠ 0
    ∧ (applyGhostEffects (synthesize 44100 SynthOutcome.error)).2 = 40/17
    ∧ (40 : ℚ)/17 ≠ (synthesize 44100 SynthOutcome.error).duration := by
  refine ⟨?_, by norm_num [applyGhostEffects], by norm_num [applyGhostEffects], ?_, ?_⟩
  · norm_num [synthesize, browserTTSFallback, createBuffer, AudioBufferM.duration]
  · norm_num [synthesize, browserTTSFallback, createBuffer, AudioBufferM.duration,
      applyGhostEffects]
  · norm_num [synthesize, browserTTSFallback, createBuffer, AudioBufferM.duration]

/-- Claim C6 (amended): if the generator's output cannot be decoded,
`synthesize` falls back to a two-second single-channel silent buffer (every
sample zero); that buffer is then routed through the standard effects chain
like any response (not with zero effects), so timing logic stays consistent
(reported duration `2 / 0.85`) and the pipeline proceeds without throwing. -/
theorem synthesize_fallback_silent (sampleRate : ℕ) (h : 0 < sampleRate) :
    (synthesize sampleRate SynthOutcome.error).duration = 2
    ∧ (synthesize sampleRate SynthOutcome.error).numberOfChannels = 1
    ∧ (synthesize sampleRate SynthOutcome.error).channelData
        = [List.replicate (sampleRate * 2) 0]
    ∧ (applyGhostEffects (synthesize sampleRate SynthOutcome.error)).1.source.started = false
    ∧ (applyGhostEffects (synthesize sampleRate SynthOutcome.error)).2 = 2 / ((85:ℚ)/100) := by
  have hdur : (synthesize sampleRate SynthOutcome.error).duration = 2 := by
    have hne : (sampleRate : ℚ) ≠ 0 := by positivity
    simp only [synthesize, browserTTSFallback, createBuffer, AudioBufferM.duration]
    push_cast
    field_simp
  refine ⟨hdur, rfl, rfl, rfl, ?_⟩
  simp only [applyGhostEffects]
  rw [hdur]

/-- Concrete instance of the amended C6 at the configured 44100 Hz sample rate. -/
theorem synthesize_fallback_silent_witness :
    (synthesize 44100 SynthOutcome.error).duration = 2
    ∧ (synthesize 44100 SynthOutcome.error).numberOfChannels = 1
    ∧ (synthesize 44100 SynthOutcome.error).channelData
        = [List.replicate (44100 * 2) 0]
    ∧ (applyGhostEffects (synthesize 44100 SynthOutcome.error)).1.source.started = false
    ∧ (applyGhostEffects (synthesize 44100 SynthOutcome.error)).2 = 2 / ((85:ℚ)/100) :=
  synthesize_fallback_silent 44100 (by norm_num)

/-! ### AudioGraphManager (`src/audio/AudioGraphManager.ts`) -/

/-- An `AudioParam` (here: a gain node's `gain`): the last directly-assigned
value, plus the list of `(target, endTime)` automation events scheduled via
`linearRampToValueAtTime`, in scheduling order. -/
structure AudioParamM where
  value : ℚ
  ramps : List (ℚ × ℚ)
deriving DecidableEq, Repr

/-- `param.linearRampToValueAtTime(target, endTime)`: schedules a linear ramp
ending at `endTime`; the param's directly-assigned value is untouched. -/
def linearRampToValueAtTime (p : AudioParamM) (target endTime : ℚ) : AudioParamM :=
  { p with ramps := p.ramps ++ [(target, endTime)] }

/-- An `AnalyserNode`'s parameters. -/
structure AnalyserM where
  fftSize : ℕ
  smoothing : ℚ
deriving DecidableEq, Repr

/-- An `AudioContext` handle; only `currentTime` is consulted by the manager's
gain scheduling. -/
structure AudioContextM where
  currentTime : ℚ
deriving DecidableEq, Repr

/-- The `AudioGraphManager`'s nullable node references and its `isRunning`
guard flag. Nodes whose parameters the manager never reads back are modelled
as presence markers (`Option Unit`). -/
structure AGMState where
  audioContext : Option AudioContextM
  noiseNode : Option Unit
  filterNode : Option BiquadFilterM
  lfoNode : Option Unit
  lfoGainNode : Option AudioParamM
  noiseGainNode : Option AudioParamM
  masterGainNode : Option AudioParamM
  analyserNode : Option AnalyserM
  isRunning : Bool
deriving DecidableEq, Repr

/-- `AudioGraphManager.stopSession`: stops the LFO (clearing `isRunning`) only
when an LFO exists and is running, then closes the context and resets every
node reference to null. -/
def stopSession (s : AGMState) : AGMState :=
  let running := if s.lfoNode.isSome ∧ s.isRunning then false else s.isRunning
  { audioContext := none
    noiseNode := none
    filterNode := none
    lfoNode := none
    lfoGainNode := none
    noiseGainNode := none
    masterGainNode := none
    analyserNode := none
    isRunning := running }

/-- `AudioGraphManager.getAnalyserNode`. -/
def getAnalyserNode (s : AGMState) : Option AnalyserM := s.analyserNode

/-- `AudioGraphManager.getAudioContext`. -/
def getAudioContext (s : AGMState) : Option AudioContextM := s.audioContext

/-- `AudioGraphManager.getMasterGainNode`. -/
def getMasterGainNode (s : AGMState) : Option AudioParamM := s.masterGainNode

/-- `AudioGraphManager.setNoiseVolume(level)`: clamps `level` to [0, 1] and
assigns the noise gain directly; a no-op when the noise gain node is null. -/
def setNoiseVolume (s : AGMState) (level : ℚ) : AGMState :=
  match s.noiseGainNode with
  | none => s
  | some g => { s with noiseGainNode := some { g with value := max 0 (min 1 level) } }

/-- `this.audioContext?.currentTime || 0` as read inside `duckNoise`. -/
def agmCurrentTime (s : AGMState) : ℚ :=
  match s.audioContext with
  | some ctx => ctx.currentTime
  | none => 0

/-- `AudioGraphManager.duckNoise(duck)`: schedules a linear ramp on the noise
gain toward `SIDECHAIN_AMOUNT` (duck) or `NOISE.GAIN` (restore), ending 0.1 s
after the context's current time; a no-op when the noise gain node is null. -/
def duckNoise (s : AGMState) (duck : Bool) : AGMState :=
  match s.noiseGainNode with
  | none => s
  | some g =>
      let targetGain :=
        if duck then AUDIO_CONFIG.SPEECH.SIDECHAIN_AMOUNT else AUDIO_CONFIG.NOISE.GAIN
      { s with
        noiseGainNode := some (linearRampToValueAtTime g targetGain (agmCurrentTime s + 1/10)) }

/-- The manager's state right after `initialize()` has run `setupNodes`:
context created (time 0), all nodes present with the configured parameters
(filter centred at `(SWEEP_MAX_FREQ + SWEEP_MIN_FREQ)/2`, LFO-gain at half the
sweep range, noise gain at `NOISE.GAIN`, master gain at 1, analyser at
`FFT_SIZE`/`SMOOTHING`), LFO not yet started. -/
def initializedAGMState : AGMState :=
  { audioContext := some { currentTime := 0 }
    noiseNode := some ()
    filterNode := some { freq := (AUDIO_CONFIG.NOISE.SWEEP_MAX_FREQ
      + AUDIO_CONFIG.NOISE.SWEEP_MIN_FREQ) / 2, q := 1 }
    lfoNode := some ()
    lfoGainNode := some { value := (AUDIO_CONFIG.NOISE.SWEEP_MAX_FREQ
      - AUDIO_CONFIG.NOISE.SWEEP_MIN_FREQ) / 2, ramps := [] }
    noiseGainNode := some { value := AUDIO_CONFIG.NOISE.GAIN, ramps := [] }
    masterGainNode := some { value := 1, ramps := [] }
    analyserNode := some { fftSize := AUDIO_CONFIG.FFT_SIZE, smoothing := AUDIO_CONFIG.SMOOTHING }
    isRunning := false }

/-- The manager before `initialize()` has ever run: every reference null. -/
def uninitializedAGMState : AGMState :=
  { audioContext := none
    noiseNode := none
    filterNode := none
    lfoNode := none
    lfoGainNode := none
    noiseGainNode := none
    masterGainNode := none
    analyserNode := none
    isRunning := false }

/-- All of the manager's node references are null (as before `initialize()`
or after `stopSession()`). -/
def graphAbsent (s : AGMState) : Prop :=
  s.audioContext = none ∧ s.noiseNode = none ∧ s.filterNode = none ∧ s.lfoNode = none
  ∧ s.lfoGainNode = none ∧ s.noiseGainNode = none ∧ s.masterGainNode = none
  ∧ s.analyserNode = none

/-! ### Claims C8, C10 -/

/-- Counterexample to C8 as stated: the "ducked" level the ramp targets is not
a reduced level — `SIDECHAIN_AMOUNT` (0.3) equals the nominal `NOISE.GAIN`
(0.3), so `duckNoise(true)` on the initialized graph schedules a ramp toward a
target that is not below nominal. -/
theorem duckNoise_ducked_level_not_reduced :
    (duckNoise initializedAGMState true).noiseGainNode =
      some { value := AUDIO_CONFIG.NOISE.GAIN
             ramps := [(AUDIO_CONFIG.SPEECH.SIDECHAIN_AMOUNT, 1/10)] }
    ∧ AUDIO_CONFIG.SPEECH.SIDECHAIN_AMOUNT = AUDIO_CONFIG.NOISE.GAIN
    ∧ ¬ AUDIO_CONFIG.SPEECH.SIDECHAIN_AMOUNT < AUDIO_CONFIG.NOISE.GAIN := by
  refine ⟨?_, rfl, ?_⟩
  · simp [duckNoise, initializedAGMState, linearRampToValueAtTime, agmCurrentTime]
  · norm_num [AUDIO_CONFIG.SPEECH.SIDECHAIN_AMOUNT, AUDIO_CONFIG.NOISE.GAIN]

/-- Claim C8 (amended): whenever the noise gain node exists, `duckNoise(duck)`
changes it only by appending a linear ramp ending 0.1 s after the context's
current time — toward the configured ducked level `SIDECHAIN_AMOUNT` when
`duck` is true (in this configuration equal to, not below, the nominal
`NOISE.GAIN`) and back toward `NOISE.GAIN` when `duck` is false — and never
reassigns the gain's value directly; `duckNoise(true)` immediately followed by
`duckNoise(false)` leaves the gain with its value untouched and its last
scheduled ramp targeting the nominal level. -/
theorem duckNoise_schedules_ramp (s : AGMState) (g : AudioParamM) (duck : Bool)
    (h : s.noiseGainNode = some g) :
    (duckNoise s duck).noiseGainNode = some
      { value := g.value
        ramps := g.ramps ++
          [((if duck then AUDIO_CONFIG.SPEECH.SIDECHAIN_AMOUNT else AUDIO_CONFIG.NOISE.GAIN),
            agmCurrentTime s + 1/10)] }
    ∧ (duckNoise (duckNoise s true) false).noiseGainNode = some
      { value := g.value
        ramps := g.ramps ++
          [(AUDIO_CONFIG.SPEECH.SIDECHAIN_AMOUNT, agmCurrentTime s + 1/10),
           (AUDIO_CONFIG.NOISE.GAIN, agmCurrentTime s + 1/10)] } := by
  constructor
  · simp [duckNoise, h, linearRampToValueAtTime]
  · simp [duckNoise, h, linearRampToValueAtTime, agmCurrentTime]

/-- Concrete instance of the amended C8 on the initialized graph:
`duckNoise(true)` then `duckNoise(false)` leaves the gain value at its nominal
0.3 and two ramps scheduled, the last toward `NOISE.GAIN`. -/
theorem duckNoise_schedules_ramp_witness :
    (duckNoise initializedAGMState true).noiseGainNode = some
      { value := AUDIO_CONFIG.NOISE.GAIN
        ramps := [(AUDIO_CONFIG.SPEECH.SIDECHAIN_AMOUNT,
          agmCurrentTime initializedAGMState + 1/10)] }
    ∧ (duckNoise (duckNoise initializedAGMState true) false).noiseGainNode = some
      { value := AUDIO_CONFIG.NOISE.GAIN
        ramps := [(AUDIO_CONFIG.SPEECH.SIDECHAIN_AMOUNT,
            agmCurrentTime initializedAGMState + 1/10),
          (AUDIO_CONFIG.NOISE.GAIN, agmCurrentTime initializedAGMState + 1/10)] } := by
  have h := duckNoise_schedules_ramp initializedAGMState
    { value := AUDIO_CONFIG.NOISE.GAIN, ramps := [] } true rfl
  simpa using h

/-- Claim C10: when every node reference is null (before `initialize()`, or
after `stopSession()`), all public manager operations are total no-ops:
`setNoiseVolume` and `duckNoise` leave the state unchanged, the three getters
return null, and calling `stopSession` again is the identity. -/
theorem agm_total_when_graph_absent (s : AGMState) (level : ℚ) (duck : Bool)
    (h : graphAbsent s) :
    setNoiseVolume s level = s ∧ duckNoise s duck = s
    ∧ getAnalyserNode s = none ∧ getAudioContext s = none ∧ getMasterGainNode s = none
    ∧ stopSession s = s := by
  obtain ⟨h1, h2, h3, h4, h5, h6, h7, h8⟩ := h
  refine ⟨?_, ?_, h8, h1, h7, ?_⟩
  · simp [setNoiseVolume, h6]
  · simp [duckNoise, h6]
  · cases s
    simp_all [stopSession]

/-- Concrete instance of C10 on the never-initialized manager state. -/
theorem agm_total_when_graph_absent_witness :
    setNoiseVolume uninitializedAGMState (3/2) = uninitializedAGMState
    ∧ duckNoise uninitializedAGMState true = uninitializedAGMState
    ∧ getAnalyserNode uninitializedAGMState = none
    ∧ getAudioContext uninitializedAGMState = none
    ∧ getMasterGainNode uninitializedAGMState = none
    ∧ stopSession uninitializedAGMState = uninitializedAGMState :=
  agm_total_when_graph_absent uninitializedAGMState (3/2) true
    ⟨rfl, rfl, rfl, rfl, rfl, rfl, rfl, rfl⟩
